import Mathlib

/-!
Shallow embedding of the hackharvard repository's own code:

* `src/model-server/server.py` — the HTTP inference gateway: the `/detect`
  handler, the `/face/embed` and `/face/verify` handlers and the shared
  image decoder `_decode_image_to_rgb`.
* `src/yolo/train.py` — the trainer CLI's dataset-split logic:
  `filter_images_with_labels`, `write_split_files`, and the fatal check in
  `main` that the filtered image list is non-empty.

External collaborators (the YOLO detector, the MTCNN face detector, the
InceptionResnetV1 embedding network, base64 decoding, cv2/PIL image
decoding, the filesystem, and Python's Mersenne-Twister RNG) are modelled
as explicit parameters (oracles) or, for the seeded shuffle, as a concrete
deterministic stand-in, since only their interface matters to the
repository's own control flow.  Python floats are modelled exactly as
rationals (trainer arithmetic) or reals (embedding arithmetic); Python
strings are modelled as `List Char`; a raised exception is modelled as the
`Except.error` branch of the oracle that raises it.
-/

namespace HackHarvard

/-! ## Payload extraction (server.py lines 57 and 108)

Both decoders run `image_b64.split(',')[1] if ',' in image_b64 else image_b64`.
`splitCommas` is Python's `str.split(',')` on the char-list model of strings. -/

def splitCommas : List Char → List (List Char)
  | [] => [[]]
  | c :: cs =>
    if c = ',' then [] :: splitCommas cs
    else List.modifyHead (fun w => c :: w) (splitCommas cs)

/-- Payload extraction as written inline in the `/detect` handler
(server.py line 108): `req.image.split(',')[1] if ',' in req.image else req.image`. -/
def extractPayloadDetect (s : List Char) : List Char :=
  if ',' ∈ s then (splitCommas s).getD 1 [] else s

/-- Payload extraction as written in `_decode_image_to_rgb`
(server.py line 57): `image_b64.split(',')[1] if ',' in image_b64 else image_b64`. -/
def extractPayloadFace (s : List Char) : List Char :=
  if ',' ∈ s then (splitCommas s).getD 1 [] else s

/-- Everything after the FIRST comma of the string. -/
def afterFirstComma : List Char → List Char
  | [] => []
  | c :: cs => if c = ',' then cs else afterFirstComma cs

/-- The payload extraction as the spec words it: "split on the first comma"
and decode everything after it; with no comma, the whole string.
This is the spec's description, to be compared with the code's
`extractPayloadDetect` / `extractPayloadFace`. -/
def extractPayloadSpecModel (s : List Char) : List Char :=
  if ',' ∈ s then afterFirstComma s else s

/-! ## The `/detect` handler (server.py lines 94-140)

Oracles: `b64` is `base64.b64decode` (raises on bad input → `Except.error`),
`imdecode` is `cv2.imdecode` (returns `None` on failure), `predict` is
`model.predict(img, conf=0.25)[0].boxes` as the list of (class id,
confidence) pairs in the detector's own output order (raises →
`Except.error`), `names` is the `model.names` dict (missing key raises
`KeyError`, caught by the handler's `except`).  Bytes are `List ℕ`, decoded
images are opaque tokens `ℕ`, confidences are `ℚ`. -/

structure DetectResponse where
  error : Option String
  detection : String
  confidence : ℚ
  deriving DecidableEq, Repr

def detect (b64 : List Char → Except String (List ℕ))
    (imdecode : List ℕ → Option ℕ)
    (predict : ℕ → Except String (List (ℕ × ℚ)))
    (names : ℕ → Option String)
    (image : List Char) : DetectResponse :=
  match b64 (extractPayloadDetect image) with
  | .error e => ⟨some e, "no_tongue", 0⟩
  | .ok img_data =>
    match imdecode img_data with
    | none => ⟨some "Failed to decode image", "no_tongue", 0⟩
    | some img =>
      match predict img with
      | .error e => ⟨some e, "no_tongue", 0⟩
      | .ok [] => ⟨none, "no_tongue", 1⟩
      | .ok (box :: _) =>
        match names box.1 with
        | none => ⟨some "KeyError", "no_tongue", 0⟩
        | some nm => ⟨none, nm, box.2⟩

/-! ## Trainer dataset split (train.py)

`random.Random(seed).shuffle` is Python-stdlib code outside the repository
(a Mersenne-Twister-driven Fisher-Yates); it is modelled as a concrete
deterministic seeded permutation: the draw sequence comes from a linear
congruential stream standing in for the Mersenne Twister.  All the claims
need of it is that it is a permutation determined solely by the seed. -/

def lcg (s : ℕ) : ℕ := (1103515245 * s + 12345) % 2 ^ 31

def shuffleGo {α : Type} : ℕ → ℕ → List α → List α
  | 0, _, l => l
  | _ + 1, _, [] => []
  | fuel + 1, s, x :: xs =>
    let l := x :: xs
    let j : Fin l.length := ⟨s % l.length, Nat.mod_lt _ (Nat.succ_pos _)⟩
    l.get j :: shuffleGo fuel (lcg s) (l.eraseIdx j.1)

/-- Model of `random.Random(seed).shuffle(image_paths)`: a deterministic
permutation of the list depending only on `seed` (the RNG itself is
external stdlib code; only "deterministic seeded permutation" is used). -/
def shuffleSeeded {α : Type} (seed : ℕ) (l : List α) : List α :=
  shuffleGo l.length (lcg seed) l

/-- Python's `int()` applied to a (here exactly-represented) float:
truncation toward zero. -/
def pyInt (q : ℚ) : ℤ := if 0 ≤ q then ⌊q⌋ else -⌊-q⌋

/-- `write_split_files` (train.py lines 47-64), modelled on manifest
contents: it shuffles the list with a fresh RNG seeded by `seed`, cuts at
`int(len(image_paths) * (1.0 - val_split))`, and writes one resolved
absolute path per line to `train.txt` (the prefix) and `val.txt` (the
suffix).  `resolve` is `str(p.resolve())` (filesystem oracle); the result
is the pair (lines of train.txt, lines of val.txt). -/
def write_split_files (resolve : String → String) (image_paths : List String)
    (val_split : ℚ) (seed : ℕ) : List String × List String :=
  let shuffled := shuffleSeeded seed image_paths
  let split_index := (pyInt ((image_paths.length : ℚ) * (1 - val_split))).toNat
  ((shuffled.take split_index).map resolve,
   (shuffled.drop split_index).map resolve)

/-- The byte content of a manifest file: each line is written as the path
followed by `"\n"` (train.py lines 58-63). -/
def manifestContent (lines : List String) : String :=
  lines.foldr (fun p acc => p ++ "\n" ++ acc) ""

/-- `filter_images_with_labels` (train.py lines 38-44): keep the images
whose same-stem `.txt` label file EXISTS in the labels directory.
`labels` is the filesystem oracle mapping a stem to the label file's
content when `labels_dir/<stem>.txt` exists; `stem` is `Path.stem`. -/
def filter_images_with_labels (labels : String → Option String)
    (stem : String → String) (image_paths : List String) : List String :=
  image_paths.filter (fun p => (labels (stem p)).isSome)

/-- The filter as the spec words it: keep only images that have a same-stem
NON-EMPTY label file.  This is the spec's description, to be compared with
the code's `filter_images_with_labels`. -/
def filterImagesWithLabelsSpecModel (labels : String → Option String)
    (stem : String → String) (image_paths : List String) : List String :=
  image_paths.filter (fun p =>
    match labels (stem p) with
    | some c => !c.isEmpty
    | none => false)

/-- The split-construction step of `main` (train.py lines 171-178): the
fatal `RuntimeError` when no labeled images remain, else the split. -/
def trainerSplitStep (labels : String → Option String) (stem : String → String)
    (all_images : List String) (resolve : String → String)
    (val_split : ℚ) (seed : ℕ) : Except String (List String × List String) :=
  let images_with_labels := filter_images_with_labels labels stem all_images
  if images_with_labels.isEmpty then
    .error "No images with corresponding YOLO label files were found."
  else
    .ok (write_split_files resolve images_with_labels val_split seed)

/-! ## Face pipeline (server.py lines 55-63 and 144-199)

Embedding arithmetic is over ℝ (Python floats modelled exactly).
Oracles: `b64` is `base64.b64decode`, `pilOpen` is
`Image.open(...).convert('RGB')` (either may raise inside
`_decode_image_to_rgb`, which catches and returns `None`); `mt` is the
MTCNN forward (`.ok none` = no face found, `.error` = raised exception);
`rs` is the `resnet(...)` forward returning the raw embedding vector. -/

def sumSq (v : List ℝ) : ℝ := (v.map (fun x => x ^ 2)).sum

/-- `np.linalg.norm`, the Euclidean norm. -/
noncomputable def l2norm (v : List ℝ) : ℝ := Real.sqrt (sumSq v)

/-- `np.linalg.norm(v) or 1.0`: Python's `or` replaces a zero (falsy) norm
by `1.0` (server.py lines 163, 189, 192). -/
noncomputable def guardedNorm (v : List ℝ) : ℝ :=
  if l2norm v = 0 then 1 else l2norm v

/-- `emb = emb / norm` with the guarded norm. -/
noncomputable def l2normalize (v : List ℝ) : List ℝ :=
  v.map (fun x => x / guardedNorm v)

/-- `np.dot` on two 1-D vectors: the inner product when the lengths agree,
a raised `ValueError` ("shapes not aligned") otherwise. -/
def npDot (a b : List ℝ) : Except String ℝ :=
  if a.length = b.length then
    .ok ((a.zip b).map (fun p => p.1 * p.2)).sum
  else
    .error "shapes not aligned"

/-- `_decode_image_to_rgb` (server.py lines 55-63): strips the data-URL
header, base64-decodes, opens as an RGB image; ANY exception is caught
and turned into `None`. -/
def _decode_image_to_rgb (b64 : List Char → Except String (List ℕ))
    (pilOpen : List ℕ → Except String ℕ) (image_b64 : List Char) : Option ℕ :=
  match b64 (extractPayloadFace image_b64) with
  | .error _ => none
  | .ok img_bytes =>
    match pilOpen img_bytes with
    | .error _ => none
    | .ok pil => some pil

/-- Response of `/face/embed`: `error`/`embedding`/`dimension` fields,
`none` meaning the key is absent (or JSON `null` for `embedding`). -/
structure FaceEmbedResponse where
  error : Option String
  embedding : Option (List ℝ)
  dimension : Option ℕ

/-- Response of `/face/verify`; `match_` is the `match` key. -/
structure FaceVerifyResponse where
  error : Option String
  similarity : Option ℝ
  match_ : Option Bool
  threshold : Option ℝ

/-- `face_embed` (server.py lines 144-167).  `available` is
`FACENET_AVAILABLE and mtcnn and resnet`. -/
noncomputable def face_embed (available : Bool)
    (b64 : List Char → Except String (List ℕ))
    (pilOpen : List ℕ → Except String ℕ)
    (mt : ℕ → Except String (Option ℕ))
    (rs : ℕ → Except String (List ℝ))
    (image : List Char) : FaceEmbedResponse :=
  if !available then ⟨some "FaceNet not available on server", none, none⟩
  else
    match _decode_image_to_rgb b64 pilOpen image with
    | none => ⟨some "Could not decode image", none, none⟩
    | some pil =>
      match mt pil with
      | .error e => ⟨some e, none, none⟩
      | .ok none => ⟨some "No face detected", none, none⟩
      | .ok (some aligned) =>
        match rs aligned with
        | .error e => ⟨some e, none, none⟩
        | .ok emb =>
          ⟨none, some (l2normalize emb), some (l2normalize emb).length⟩

/-- `face_verify` (server.py lines 169-199). -/
noncomputable def face_verify (available : Bool)
    (b64 : List Char → Except String (List ℕ))
    (pilOpen : List ℕ → Except String ℕ)
    (mt : ℕ → Except String (Option ℕ))
    (rs : ℕ → Except String (List ℝ))
    (image : List Char) (reference : List ℝ) : FaceVerifyResponse :=
  if !available then ⟨some "FaceNet not available on server", none, none, none⟩
  else if reference.length = 0 then
    ⟨some "Empty reference embedding", none, none, none⟩
  else
    match _decode_image_to_rgb b64 pilOpen image with
    | none => ⟨some "Could not decode image", none, none, none⟩
    | some pil =>
      match mt pil with
      | .error e => ⟨some e, none, none, none⟩
      | .ok none => ⟨some "No face detected", none, none, none⟩
      | .ok (some aligned) =>
        match rs aligned with
        | .error e => ⟨some e, none, none, none⟩
        | .ok emb =>
          match npDot (l2normalize emb) (l2normalize reference) with
          | .error e => ⟨some e, none, none, none⟩
          | .ok similarity =>
            ⟨none, some similarity,
             some (if (7 : ℝ) / 10 ≤ similarity then true else false),
             some ((7 : ℝ) / 10)⟩

/-! ## Supporting lemmas -/

theorem splitCommas_ne_nil (s : List Char) : splitCommas s ≠ [] := by
  induction s with
  | nil => simp [splitCommas]
  | cons c cs ih =>
    by_cases h : c = ','
    · simp [splitCommas, h]
    · simp only [splitCommas, if_neg h]
      cases hs : splitCommas cs with
      | nil => exact absurd hs ih
      | cons a as => simp [List.modifyHead]

theorem splitCommas_no_comma (s : List Char) (h : ',' ∉ s) :
    splitCommas s = [s] := by
  induction s with
  | nil => rfl
  | cons c cs ih =>
    have hc : c ≠ ',' := fun hc => h (hc ▸ List.mem_cons_self c cs)
    have hcs : ',' ∉ cs := fun hm => h (List.mem_cons_of_mem c hm)
    simp [splitCommas, hc, ih hcs, List.modifyHead]

theorem splitCommas_getD_one_of_count_one (s : List Char)
    (h : s.count ',' = 1) :
    (splitCommas s).getD 1 [] = afterFirstComma s := by
  induction s with
  | nil => simp at h
  | cons c cs ih =>
    by_cases hc : c = ','
    · subst hc
      have hcs : cs.count ',' = 0 := by
        have := h
        rw [List.count_cons_self] at this
        omega
      have : ',' ∉ cs := by
        rw [← List.count_eq_zero]
        exact hcs
      simp [splitCommas, afterFirstComma, splitCommas_no_comma cs this]
    · have hcs : cs.count ',' = 1 := by
        rw [List.count_cons] at h
        simpa [hc] using h
      have := ih hcs
      cases hs : splitCommas cs with
      | nil => exact absurd hs (splitCommas_ne_nil cs)
      | cons a as =>
        rw [hs] at this
        simp only [splitCommas, if_neg hc, hs, List.modifyHead,
          afterFirstComma, if_neg hc]
        simpa using this

theorem count_pos_of_mem {s : List Char} (h : ',' ∈ s) : 0 < s.count ',' := by
  exact List.count_pos_iff.mpr h

/-- The element picked by the shuffle, put back, is a permutation. -/
theorem get_cons_eraseIdx_perm {α : Type} (l : List α) (j : Fin l.length) :
    (l.get j :: l.eraseIdx j.1).Perm l := by
  induction l with
  | nil => exact absurd j.isLt (by simp)
  | cons x xs ih =>
    match j with
    | ⟨0, _⟩ => simp [List.eraseIdx]
    | ⟨k + 1, hk⟩ =>
      have hk' : k < xs.length := by simpa using hk
      have := ih ⟨k, hk'⟩
      exact (List.Perm.swap x (xs.get ⟨k, hk'⟩) (xs.eraseIdx k)).trans
        ((this.cons x).trans (List.Perm.refl _))

theorem shuffleGo_perm {α : Type} (fuel : ℕ) :
    ∀ (s : ℕ) (l : List α), (shuffleGo fuel s l).Perm l := by
  induction fuel with
  | zero => intro s l; simp [shuffleGo]
  | succ n ih =>
    intro s l
    cases l with
    | nil => simp [shuffleGo]
    | cons x xs =>
      simp only [shuffleGo]
      exact ((ih (lcg s) _).cons _).trans (get_cons_eraseIdx_perm (x :: xs) _)

theorem shuffleSeeded_perm {α : Type} (seed : ℕ) (l : List α) :
    (shuffleSeeded seed l).Perm l :=
  shuffleGo_perm l.length (lcg seed) l

theorem shuffleSeeded_length {α : Type} (seed : ℕ) (l : List α) :
    (shuffleSeeded seed l).length = l.length :=
  (shuffleSeeded_perm seed l).length_eq

theorem sumSq_nonneg (v : List ℝ) : 0 ≤ sumSq v := by
  refine List.sum_nonneg ?_
  intro x hx
  obtain ⟨y, _, rfl⟩ := List.mem_map.mp hx
  positivity

theorem sumSq_eq_zero_iff (v : List ℝ) :
    sumSq v = 0 ↔ ∀ x ∈ v, x = 0 := by
  induction v with
  | nil => simp [sumSq]
  | cons x xs ih =>
    have h1 : (0 : ℝ) ≤ x ^ 2 := by positivity
    have h2 := sumSq_nonneg xs
    have : sumSq (x :: xs) = x ^ 2 + sumSq xs := by simp [sumSq]
    rw [this, add_eq_zero_iff_of_nonneg h1 h2]
    simp only [pow_eq_zero_iff (two_ne_zero), ih, List.mem_cons]
    constructor
    · rintro ⟨hx, hxs⟩ y (rfl | hy)
      · exact hx
      · exact hxs y hy
    · intro h
      exact ⟨h x (Or.inl rfl), fun y hy => h y (Or.inr hy)⟩

theorem l2norm_eq_zero_iff (v : List ℝ) :
    l2norm v = 0 ↔ ∀ x ∈ v, x = 0 := by
  rw [l2norm, Real.sqrt_eq_zero (sumSq_nonneg v), sumSq_eq_zero_iff]

theorem l2norm_nonneg (v : List ℝ) : 0 ≤ l2norm v := Real.sqrt_nonneg _

theorem sumSq_map_div (v : List ℝ) (c : ℝ) :
    sumSq (v.map (fun x => x / c)) = sumSq v / c ^ 2 := by
  simp only [sumSq, List.map_map, Function.comp_def, div_eq_mul_inv, mul_pow,
    inv_pow]
  exact List.sum_map_mul_right v (fun x => x ^ 2) (c ^ 2)⁻¹

/-- Normalizing a vector of non-zero norm yields a unit vector. -/
theorem l2norm_l2normalize (v : List ℝ) (h : l2norm v ≠ 0) :
    l2norm (l2normalize v) = 1 := by
  have hnorm_pos : 0 < l2norm v := lt_of_le_of_ne (l2norm_nonneg v) (Ne.symm h)
  rw [l2normalize, guardedNorm, if_neg h, l2norm, sumSq_map_div,
    Real.sqrt_div (sumSq_nonneg v), Real.sqrt_sq (l2norm_nonneg v)]
  rw [show Real.sqrt (sumSq v) = l2norm v from rfl]
  exact div_self h

theorem l2normalize_length (v : List ℝ) :
    (l2normalize v).length = v.length := by
  simp [l2normalize]

/-- The inner product of two equal-length vectors (the `.ok` value of
`npDot`). -/
def dotList (a b : List ℝ) : ℝ := ((a.zip b).map (fun p => p.1 * p.2)).sum

theorem npDot_eq_ok (a b : List ℝ) (h : a.length = b.length) :
    npDot a b = .ok (dotList a b) := by
  simp [npDot, dotList, h]

/-- Both payload extractions are one and the same computation. -/
theorem extractPayloadFace_eq_detect :
    extractPayloadFace = extractPayloadDetect := rfl

theorem pyInt_of_nonneg (q : ℚ) (h : 0 ≤ q) : pyInt q = ⌊q⌋ := if_pos h

/-! ## Claim theorems -/

/-- C7: `write_split_files` shuffles the filtered list with an RNG seeded
by the given seed and cuts it at index `floor(N * (1 - val_split))`, the
training subset taking the prefix and the validation subset the suffix;
with `val_split = 0.2` and `N = 10` this yields 8 training and 2
validation entries.  (`val_split ≤ 1` keeps Python's `int()` truncation
equal to `floor`; the CLI documents `val_split` as a fraction in `[0,1)`.) -/
theorem C7_split_shuffle_and_cut (resolve : String → String)
    (paths : List String) (v : ℚ) (seed : ℕ) (hv : v ≤ 1) :
    write_split_files resolve paths v seed =
      (((shuffleSeeded seed paths).take
          (⌊(paths.length : ℚ) * (1 - v)⌋).toNat).map resolve,
       ((shuffleSeeded seed paths).drop
          (⌊(paths.length : ℚ) * (1 - v)⌋).toNat).map resolve) ∧
    (paths.length = 10 → v = 2 / 10 →
      (write_split_files resolve paths v seed).1.length = 8 ∧
      (write_split_files resolve paths v seed).2.length = 2) := by
  have harg : 0 ≤ (paths.length : ℚ) * (1 - v) :=
    mul_nonneg (by positivity) (by linarith)
  have hpy := pyInt_of_nonneg _ harg
  constructor
  · simp only [write_split_files, hpy]
  · intro hN hv2
    subst hv2
    have hq : ((paths.length : ℚ) * (1 - 2 / 10)) = 8 := by
      rw [hN]; norm_num
    have hfl : (pyInt ((paths.length : ℚ) * (1 - 2 / 10))).toNat = 8 := by
      rw [hpy, hq, show ⌊(8 : ℚ)⌋ = 8 by norm_num]
      rfl
    have hlen := shuffleSeeded_length seed paths
    constructor
    · simp only [write_split_files]
      rw [hfl]
      simp only [List.length_map, List.length_take, hlen, hN]
      omega
    · simp only [write_split_files]
      rw [hfl]
      simp only [List.length_map, List.length_drop, hlen, hN]

def paths10 : List String := ["a", "b", "c", "d", "e", "f", "g", "h", "i", "j"]

theorem C7_witness :
    ((2 : ℚ) / 10 ≤ 1) ∧ paths10.length = 10 ∧
    (write_split_files id paths10 (2 / 10) 0).1.length = 8 ∧
    (write_split_files id paths10 (2 / 10) 0).2.length = 2 :=
  ⟨by norm_num, rfl,
   (C7_split_shuffle_and_cut id paths10 (2 / 10) 0 (by norm_num)).2 rfl rfl⟩

/-- C8: the dataset split is deterministic: two runs on the same input
list, seed and `val_split` produce identical train/validation partitions
and byte-identical `train.txt`/`val.txt` contents.  In the embedding this
holds by congruence: `write_split_files` is a pure function of the input
list, the seed and `val_split`, faithfully to the code, which seeds a
fresh `random.Random(seed)` on every call instead of using ambient RNG
state. -/
theorem C8_split_deterministic (resolve : String → String)
    (paths1 paths2 : List String) (v1 v2 : ℚ) (s1 s2 : ℕ)
    (hp : paths1 = paths2) (hv : v1 = v2) (hs : s1 = s2) :
    write_split_files resolve paths1 v1 s1 =
      write_split_files resolve paths2 v2 s2 ∧
    manifestContent (write_split_files resolve paths1 v1 s1).1 =
      manifestContent (write_split_files resolve paths2 v2 s2).1 ∧
    manifestContent (write_split_files resolve paths1 v1 s1).2 =
      manifestContent (write_split_files resolve paths2 v2 s2).2 := by
  subst hp; subst hv; subst hs
  exact ⟨rfl, rfl, rfl⟩

theorem C8_witness :
    write_split_files id paths10 (2 / 10) 7 =
      write_split_files id paths10 (2 / 10) 7 ∧
    manifestContent (write_split_files id paths10 (2 / 10) 7).1 =
      manifestContent (write_split_files id paths10 (2 / 10) 7).1 ∧
    manifestContent (write_split_files id paths10 (2 / 10) 7).2 =
      manifestContent (write_split_files id paths10 (2 / 10) 7).2 :=
  C8_split_deterministic id paths10 paths10 (2 / 10) (2 / 10) 7 7 rfl rfl rfl

/-- C10: the lines of `train.txt` followed by the lines of `val.txt` are
exactly the resolved paths of the (filtered) input list after the seeded
shuffle; the shuffle is a permutation of the input, so every input image
appears exactly once across the two manifests and no line comes from
outside the input list. -/
theorem C10_manifests_partition (resolve : String → String)
    (paths : List String) (v : ℚ) (seed : ℕ) :
    (write_split_files resolve paths v seed).1 ++
        (write_split_files resolve paths v seed).2 =
      (shuffleSeeded seed paths).map resolve ∧
    (shuffleSeeded seed paths).Perm paths ∧
    ((write_split_files resolve paths v seed).1 ++
        (write_split_files resolve paths v seed).2).Perm
      (paths.map resolve) ∧
    ∀ x, ((write_split_files resolve paths v seed).1 ++
        (write_split_files resolve paths v seed).2).count x =
      (paths.map resolve).count x := by
  have h1 : (write_split_files resolve paths v seed).1 ++
      (write_split_files resolve paths v seed).2 =
      (shuffleSeeded seed paths).map resolve := by
    show ((shuffleSeeded seed paths).take _).map resolve ++
      ((shuffleSeeded seed paths).drop _).map resolve = _
    rw [← List.map_append, List.take_append_drop]
  have h2 := shuffleSeeded_perm seed paths
  have h3 : ((write_split_files resolve paths v seed).1 ++
      (write_split_files resolve paths v seed).2).Perm
      (paths.map resolve) := by
    rw [h1]; exact h2.map resolve
  exact ⟨h1, h2, h3, fun x => h3.count_eq x⟩

/-- C9 counterexample: an image whose same-stem label file exists but is
EMPTY is kept by `filter_images_with_labels` (the code checks only
`label_path.exists()`), whereas the claim's "non-empty label file"
condition would exclude it. -/
def labelsCex : String → Option String := fun s =>
  if s = "a" then some "" else none

def stemCex : String → String := fun p => if p = "a.jpg" then "a" else p

theorem C9_counterexample :
    labelsCex (stemCex "a.jpg") = some "" ∧
    filter_images_with_labels labelsCex stemCex ["a.jpg"] = ["a.jpg"] ∧
    filterImagesWithLabelsSpecModel labelsCex stemCex ["a.jpg"] = [] := by
  refine ⟨by decide, by decide, by decide⟩

/-- C9 amended: the split is built only from images whose same-stem label
file EXISTS in the labels directory (emptiness is not checked); any image
without such a label file is excluded before splitting, and if the
exclusion leaves zero images the trainer raises a fatal `RuntimeError`
instead of producing a split. -/
theorem C9_filter_existence_only (labels : String → Option String)
    (stem : String → String) (resolve : String → String) (v : ℚ) (seed : ℕ)
    (paths : List String)
    (hempty : filter_images_with_labels labels stem paths = []) :
    (∀ q ps, q ∈ filter_images_with_labels labels stem ps ↔
      q ∈ ps ∧ (labels (stem q)).isSome = true) ∧
    trainerSplitStep labels stem paths resolve v seed =
      .error "No images with corresponding YOLO label files were found." := by
  constructor
  · intro q ps
    simp [filter_images_with_labels, List.mem_filter]
  · simp [trainerSplitStep, hempty]

theorem C9_witness :
    filter_images_with_labels (fun _ => none) id ["x.jpg"] = [] ∧
    trainerSplitStep (fun _ => none) id ["x.jpg"] id (2 / 10) 42 =
      .error "No images with corresponding YOLO label files were found." :=
  ⟨rfl, (C9_filter_existence_only (fun _ => none) id id (2 / 10) 42
    ["x.jpg"] rfl).2⟩

/-- C3 counterexample: on a payload with two commas the code base64-decodes
`split(',')[1]`, the segment BETWEEN the first and second comma (`"Q"`),
not everything after the first comma (`"Q,R"`) as the claim states. -/
theorem C3_counterexample :
    extractPayloadDetect ['h', ',', 'Q', ',', 'R'] = ['Q'] ∧
    extractPayloadFace ['h', ',', 'Q', ',', 'R'] = ['Q'] ∧
    extractPayloadSpecModel ['h', ',', 'Q', ',', 'R'] = ['Q', ',', 'R'] ∧
    extractPayloadDetect ['h', ',', 'Q', ',', 'R'] ≠
      extractPayloadSpecModel ['h', ',', 'Q', ',', 'R'] := by
  refine ⟨by decide, by decide, by decide, by decide⟩

/-- C3 amended: both decoders split the payload on commas and base64-decode
the element at index 1 of the split (the segment between the first and
second comma); for a payload containing at most one comma — in particular
any data-URL header followed by base64, or raw base64 — this coincides
with "everything after the first comma", and a payload with no comma is
decoded whole. -/
theorem C3_extract_amended (s : List Char) (hc : s.count ',' ≤ 1) :
    extractPayloadDetect s = extractPayloadFace s ∧
    (∀ t : List Char, extractPayloadDetect t =
      if ',' ∈ t then (splitCommas t).getD 1 [] else t) ∧
    extractPayloadDetect s = extractPayloadSpecModel s := by
  refine ⟨rfl, fun t => rfl, ?_⟩
  by_cases h : ',' ∈ s
  · have h1 : s.count ',' = 1 := by
      have := count_pos_of_mem h
      omega
    simp only [extractPayloadDetect, extractPayloadSpecModel, if_pos h]
    exact splitCommas_getD_one_of_count_one s h1
  · simp [extractPayloadDetect, extractPayloadSpecModel, h]

theorem C3_witness :
    (['d', ',', 'Q'].count ',' ≤ 1) ∧
    extractPayloadDetect ['d', ',', 'Q'] = extractPayloadFace ['d', ',', 'Q'] ∧
    (∀ t : List Char, extractPayloadDetect t =
      if ',' ∈ t then (splitCommas t).getD 1 [] else t) ∧
    extractPayloadDetect ['d', ',', 'Q'] =
      extractPayloadSpecModel ['d', ',', 'Q'] :=
  ⟨by decide, C3_extract_amended ['d', ',', 'Q'] (by decide)⟩

/-- C2: for a `/detect` request whose image decodes successfully, zero
boxes yield exactly `{detection: "no_tongue", confidence: 1.0}`; otherwise
the response is the resolved class name and confidence of the FIRST box in
the backend's own output order, whatever the remaining boxes are (no
re-ranking by the handler). -/
theorem C2_detect_first_box (b64 : List Char → Except String (List ℕ))
    (imdecode : List ℕ → Option ℕ)
    (predict : ℕ → Except String (List (ℕ × ℚ)))
    (names : ℕ → Option String)
    (s1 s2 : List Char) (bs1 bs2 : List ℕ) (i1 i2 : ℕ)
    (c : ℕ) (conf : ℚ) (rest : List (ℕ × ℚ)) (nm : String)
    (h1 : b64 (extractPayloadDetect s1) = .ok bs1)
    (h2 : imdecode bs1 = some i1)
    (h3 : predict i1 = .ok [])
    (h4 : b64 (extractPayloadDetect s2) = .ok bs2)
    (h5 : imdecode bs2 = some i2)
    (h6 : predict i2 = .ok ((c, conf) :: rest))
    (h7 : names c = some nm) :
    detect b64 imdecode predict names s1 = ⟨none, "no_tongue", 1⟩ ∧
    detect b64 imdecode predict names s2 = ⟨none, nm, conf⟩ := by
  constructor
  · simp [detect, h1, h2, h3]
  · simp [detect, h4, h5, h6, h7]

/-! Concrete oracle instantiations used by the witnesses: `b64W` fails only
on the payload `"A"`, `imdecodeW` fails only on the bytes `[2]`, `pilOpenW`
fails only on the bytes `[2]`, `predictW` raises only on image `3` and
returns one low-confidence box followed by a higher-confidence one on
image `2`, `mtW` raises only on image `3`, `rsW` raises only on crop `4`
and otherwise returns `embW`, a 512-dim vector. -/

def b64W : List Char → Except String (List ℕ) := fun t =>
  if t = ['A'] then .error "bad base64" else .ok [t.length]

def imdecodeW : List ℕ → Option ℕ := fun bs =>
  if bs = [2] then none else some (bs.headD 0)

def pilOpenW : List ℕ → Except String ℕ := fun bs =>
  if bs = [2] then .error "cannot identify image file" else .ok (bs.headD 0)

def predictW : ℕ → Except String (List (ℕ × ℚ)) := fun i =>
  if i = 3 then .error "inference failed"
  else if i = 5 then .ok [(0, 3 / 10), (1, 9 / 10)]
  else .ok []

def namesW : ℕ → Option String := fun c =>
  if c = 0 then some "tongue_left" else some "tongue_right"

def mtW : ℕ → Except String (Option ℕ) := fun p =>
  if p = 3 then .error "mtcnn failed" else .ok (some p)

def embW : List ℝ := (1 : ℝ) :: List.replicate 511 0

def rsW : ℕ → Except String (List ℝ) := fun a =>
  if a = 4 then .error "resnet failed" else .ok embW

theorem embW_length : embW.length = 512 := by
  rw [embW, List.length_cons, List.length_replicate]

theorem embW_length_ne_zero : embW.length ≠ 0 := by
  rw [embW_length]; decide

theorem embW_has_nonzero : ∃ x ∈ embW, x ≠ 0 :=
  ⟨1, List.mem_cons_self _ _, one_ne_zero⟩

theorem C2_witness :
    predictW 5 = .ok [(0, 3 / 10), (1, 9 / 10)] ∧
    detect b64W imdecodeW predictW namesW ['x'] = ⟨none, "no_tongue", 1⟩ ∧
    detect b64W imdecodeW predictW namesW ['x', 'x', 'x', 'x', 'x'] =
      ⟨none, "tongue_left", 3 / 10⟩ := by
  refine ⟨rfl, ?_⟩
  exact C2_detect_first_box b64W imdecodeW predictW namesW
    ['x'] ['x', 'x', 'x', 'x', 'x'] [1] [5] 1 5 0 (3 / 10) [(1, 9 / 10)]
    "tongue_left" rfl rfl rfl rfl rfl rfl rfl

/-- C6: `/face/verify` with an empty `reference` list returns the
"Empty reference embedding" error object without attempting any image
decoding, face detection or embedding inference — the response is the same
for EVERY decode/detector/embedder oracle, which the universally
quantified oracle arguments express; and the face-backend availability
check precedes the reference check: with the backend unavailable the
response is the availability error even when the reference is empty. -/
theorem C6_empty_reference (b64 : List Char → Except String (List ℕ))
    (pilOpen : List ℕ → Except String ℕ)
    (mt : ℕ → Except String (Option ℕ))
    (rs : ℕ → Except String (List ℝ))
    (image : List Char) :
    face_verify true b64 pilOpen mt rs image [] =
      ⟨some "Empty reference embedding", none, none, none⟩ ∧
    face_verify false b64 pilOpen mt rs image [] =
      ⟨some "FaceNet not available on server", none, none, none⟩ := by
  constructor
  · simp [face_verify]
  · simp [face_verify]

/-- C4: whenever base64 decoding or image decoding fails, or an exception
is raised during detection, alignment or embedding inference, each of
`/detect`, `/face/embed` and `/face/verify` returns its endpoint's
in-band error variant with the full key set (`/detect`:
`{error, detection: "no_tongue", confidence: 0.0}`; `/face/embed`:
`{error, embedding: null}`; `/face/verify`: `{error}`).  The handlers are
total functions of their inputs in this embedding — every failure of an
oracle is mapped to a response object, never propagated. -/
theorem C4_error_variants (b64 : List Char → Except String (List ℕ))
    (imdecode : List ℕ → Option ℕ)
    (predict : ℕ → Except String (List (ℕ × ℚ)))
    (names : ℕ → Option String)
    (pilOpen : List ℕ → Except String ℕ)
    (mt : ℕ → Except String (Option ℕ))
    (rs : ℕ → Except String (List ℝ))
    (ref : List ℝ) (href : ref.length ≠ 0)
    (sA : List Char) (eA : String)
    (hA : b64 (extractPayloadDetect sA) = .error eA)
    (sB : List Char) (bsB : List ℕ) (eB : String)
    (hB0 : b64 (extractPayloadDetect sB) = .ok bsB)
    (hB1 : imdecode bsB = none)
    (hB2 : pilOpen bsB = .error eB)
    (sC : List Char) (bsC : List ℕ) (iC pC : ℕ) (eC eM : String)
    (hC0 : b64 (extractPayloadDetect sC) = .ok bsC)
    (hC1 : imdecode bsC = some iC)
    (hC2 : predict iC = .error eC)
    (hC3 : pilOpen bsC = .ok pC)
    (hC4 : mt pC = .error eM)
    (sD : List Char) (bsD : List ℕ) (pD aD : ℕ) (eR : String)
    (hD0 : b64 (extractPayloadDetect sD) = .ok bsD)
    (hD1 : pilOpen bsD = .ok pD)
    (hD2 : mt pD = .ok (some aD))
    (hD3 : rs aD = .error eR) :
    detect b64 imdecode predict names sA = ⟨some eA, "no_tongue", 0⟩ ∧
    face_embed true b64 pilOpen mt rs sA =
      ⟨some "Could not decode image", none, none⟩ ∧
    face_verify true b64 pilOpen mt rs sA ref =
      ⟨some "Could not decode image", none, none, none⟩ ∧
    detect b64 imdecode predict names sB =
      ⟨some "Failed to decode image", "no_tongue", 0⟩ ∧
    face_embed true b64 pilOpen mt rs sB =
      ⟨some "Could not decode image", none, none⟩ ∧
    face_verify true b64 pilOpen mt rs sB ref =
      ⟨some "Could not decode image", none, none, none⟩ ∧
    detect b64 imdecode predict names sC = ⟨some eC, "no_tongue", 0⟩ ∧
    face_embed true b64 pilOpen mt rs sC = ⟨some eM, none, none⟩ ∧
    face_verify true b64 pilOpen mt rs sC ref = ⟨some eM, none, none, none⟩ ∧
    face_embed true b64 pilOpen mt rs sD = ⟨some eR, none, none⟩ ∧
    face_verify true b64 pilOpen mt rs sD ref =
      ⟨some eR, none, none, none⟩ := by
  refine ⟨?_, ?_, ?_, ?_, ?_, ?_, ?_, ?_, ?_, ?_, ?_⟩
  · simp [detect, hA]
  · simp [face_embed, _decode_image_to_rgb, extractPayloadFace_eq_detect, hA]
  · simp [face_verify, _decode_image_to_rgb, extractPayloadFace_eq_detect,
      hA, href]
  · simp [detect, hB0, hB1]
  · simp [face_embed, _decode_image_to_rgb, extractPayloadFace_eq_detect,
      hB0, hB2]
  · simp [face_verify, _decode_image_to_rgb, extractPayloadFace_eq_detect,
      hB0, hB2, href]
  · simp [detect, hC0, hC1, hC2]
  · simp [face_embed, _decode_image_to_rgb, extractPayloadFace_eq_detect,
      hC0, hC3, hC4]
  · simp [face_verify, _decode_image_to_rgb, extractPayloadFace_eq_detect,
      hC0, hC3, hC4, href]
  · simp [face_embed, _decode_image_to_rgb, extractPayloadFace_eq_detect,
      hD0, hD1, hD2, hD3]
  · simp [face_verify, _decode_image_to_rgb, extractPayloadFace_eq_detect,
      hD0, hD1, hD2, hD3, href]

theorem C4_witness :
    b64W (extractPayloadDetect ['A']) = .error "bad base64" ∧
    detect b64W imdecodeW predictW namesW ['A'] =
      ⟨some "bad base64", "no_tongue", 0⟩ ∧
    face_embed true b64W pilOpenW mtW rsW ['A'] =
      ⟨some "Could not decode image", none, none⟩ := by
  have h := C4_error_variants b64W imdecodeW predictW namesW pilOpenW mtW rsW
    [(1 : ℝ)] (by simp)
    ['A'] "bad base64" rfl
    ['B', 'B'] [2] "cannot identify image file" rfl rfl rfl
    ['C', 'C', 'C'] [3] 3 3 "inference failed" "mtcnn failed" rfl rfl rfl
      rfl rfl
    ['D', 'D', 'D', 'D'] [4] 4 4 "resnet failed" rfl rfl rfl rfl
  exact ⟨rfl, h.1, h.2.1⟩

/-- C5: a successful `/face/embed` response carries the backend's raw
embedding divided componentwise by its guarded Euclidean norm (`1.0`
substituted for a zero norm), with the `dimension` field equal to the
length of that vector — `512` when the backend honours its 512-dim
interface — and the returned vector has unit Euclidean norm whenever the
raw embedding is non-zero. -/
theorem C5_embed_normalized (b64 : List Char → Except String (List ℕ))
    (pilOpen : List ℕ → Except String ℕ)
    (mt : ℕ → Except String (Option ℕ))
    (rs : ℕ → Except String (List ℝ))
    (image : List Char) (pil aligned : ℕ) (emb : List ℝ)
    (hdec : _decode_image_to_rgb b64 pilOpen image = some pil)
    (hmt : mt pil = .ok (some aligned))
    (hrs : rs aligned = .ok emb)
    (hlen : emb.length = 512) :
    face_embed true b64 pilOpen mt rs image =
      ⟨none, some (l2normalize emb), some 512⟩ ∧
    l2normalize emb = emb.map (fun x => x / guardedNorm emb) ∧
    (l2normalize emb).length = 512 ∧
    ((∃ x ∈ emb, x ≠ 0) → l2norm (l2normalize emb) = 1) := by
  refine ⟨?_, rfl, by rw [l2normalize_length, hlen], ?_⟩
  · simp [face_embed, hdec, hmt, hrs, l2normalize_length, hlen]
  · rintro ⟨x, hx, hx0⟩
    apply l2norm_l2normalize
    intro h0
    exact hx0 ((l2norm_eq_zero_iff emb).mp h0 x hx)

theorem C5_witness :
    rsW 0 = .ok embW ∧ embW.length = 512 ∧
    face_embed true b64W pilOpenW mtW rsW ['x'] =
      ⟨none, some (l2normalize embW), some 512⟩ ∧
    l2norm (l2normalize embW) = 1 := by
  have h := C5_embed_normalized b64W pilOpenW mtW rsW ['x'] 1 1 embW
    rfl rfl rfl embW_length
  exact ⟨rfl, embW_length, h.1, h.2.2.2 embW_has_nonzero⟩

/-- C1 counterexample: every precondition of the claim holds — the face
backend is available, the reference list `[1]` is non-empty, and decoding,
face detection and embedding all succeed (the backend returns the 512-dim
vector `embW`) — yet the response is the in-band `np.dot` shape-mismatch
error, not `{similarity, match, threshold}`, because the reference's
length (1) differs from the embedding's (512). -/
theorem C1_counterexample :
    ([(1 : ℝ)].length ≠ 0) ∧
    _decode_image_to_rgb b64W pilOpenW ['x'] = some 1 ∧
    mtW 1 = .ok (some 1) ∧ rsW 1 = .ok embW ∧ embW.length = 512 ∧
    face_verify true b64W pilOpenW mtW rsW ['x'] [(1 : ℝ)] =
      ⟨some "shapes not aligned", none, none, none⟩ := by
  refine ⟨by simp, rfl, rfl, rfl, embW_length, ?_⟩
  have h1 : _decode_image_to_rgb b64W pilOpenW ['x'] = some 1 := rfl
  have hne : (l2normalize embW).length ≠ ((l2normalize [(1 : ℝ)]).length) := by
    rw [l2normalize_length, l2normalize_length, embW_length]
    simp
  simp [face_verify, h1, mtW, rsW, npDot, hne]

/-- C1 amended: for every `/face/verify` request where the face backend is
available, the reference list is non-empty, decoding, face detection and
embedding all succeed, AND the reference vector has the same length as the
query embedding (the backend's 512), the response is
`{similarity, match, threshold}` where `similarity` is the dot product of
the L2-normalized query embedding and the L2-normalized reference (each
norm replaced by `1.0` when zero), `threshold = 0.7`, and `match` holds
iff `similarity ≥ 0.7`. -/
theorem C1_verify_similarity (b64 : List Char → Except String (List ℕ))
    (pilOpen : List ℕ → Except String ℕ)
    (mt : ℕ → Except String (Option ℕ))
    (rs : ℕ → Except String (List ℝ))
    (image : List Char) (pil aligned : ℕ) (emb reference : List ℝ)
    (href : reference.length ≠ 0)
    (hdec : _decode_image_to_rgb b64 pilOpen image = some pil)
    (hmt : mt pil = .ok (some aligned))
    (hrs : rs aligned = .ok emb)
    (hlen : emb.length = reference.length) :
    face_verify true b64 pilOpen mt rs image reference =
      ⟨none, some (dotList (l2normalize emb) (l2normalize reference)),
       some (if (7 : ℝ) / 10 ≤
          dotList (l2normalize emb) (l2normalize reference) then true
        else false),
       some ((7 : ℝ) / 10)⟩ ∧
    ((if (7 : ℝ) / 10 ≤
        dotList (l2normalize emb) (l2normalize reference) then true
      else false) = true ↔
      (7 : ℝ) / 10 ≤ dotList (l2normalize emb) (l2normalize reference)) := by
  have hl : (l2normalize emb).length = (l2normalize reference).length := by
    rw [l2normalize_length, l2normalize_length, hlen]
  constructor
  · simp [face_verify, hdec, hmt, hrs, href, npDot_eq_ok _ _ hl]
  · by_cases h : (7 : ℝ) / 10 ≤
        dotList (l2normalize emb) (l2normalize reference)
    · simp [h]
    · simp [h]

theorem C1_witness :
    (embW.length ≠ 0) ∧ rsW 1 = .ok embW ∧
    face_verify true b64W pilOpenW mtW rsW ['x'] embW =
      ⟨none, some (dotList (l2normalize embW) (l2normalize embW)),
       some (if (7 : ℝ) / 10 ≤
          dotList (l2normalize embW) (l2normalize embW) then true
        else false),
       some ((7 : ℝ) / 10)⟩ := by
  have h := C1_verify_similarity b64W pilOpenW mtW rsW ['x'] 1 1 embW embW
    embW_length_ne_zero rfl rfl rfl rfl
  exact ⟨embW_length_ne_zero, rfl, h.1⟩

end HackHarvard
